import Mathlib

/-!
Shallow embedding of the hail batch file-copy tool
(src/hail/python/hailtop/aiotools/copy.py) and of the pieces of the
transfer-orchestration core it calls into (Copier, CopyReport,
RouterAsyncFS), which live outside the given sources and are modelled
from the design document.

Python dictionaries are embedded as association lists in insertion
order; Python exceptions as an explicit error type threaded through
Except; the asyncio semaphore as an explicit state machine over the
number of available permits and the number of active copy tasks.
-/

/-- Errors a run of the copy tool can raise: a missing dictionary key
(Python KeyError) or a failed assert statement (Python AssertionError). -/
inductive PyErr where
  | keyError (k : String)
  | assertionError
deriving DecidableEq, Repr

/-- The disposition modes of Transfer: DEST_DIR (copy into a directory)
and DEST_IS_TARGET (copy onto an exact path), from the Transfer class
referenced by copy.py. -/
inductive TreatDestAs where
  | DEST_DIR
  | DEST_IS_TARGET
deriving DecidableEq, Repr

/-- A transfer specification: Transfer(src, dest, treat_dest_as=...). -/
structure Transfer where
  src : String
  dest : String
  treat_dest_as : TreatDestAs
deriving DecidableEq, Repr

/-- A JSON object of string fields, as consumed by make_transfer:
an association list of key/value pairs in insertion order. -/
abbrev StrDict := List (String × String)

/-- Membership test on dictionary keys, embedding the Python expression
(k in json_object). -/
def StrDict.containsKey (d : StrDict) (k : String) : Bool :=
  d.any (fun kv => kv.1 == k)

/-- First value stored under a key, if any. -/
def StrDict.get? (d : StrDict) (k : String) : Option String :=
  (d.find? (fun kv => kv.1 == k)).map (fun kv => kv.2)

/-- Subscript access json_object[k]: the value when the key is present,
KeyError otherwise. -/
def StrDict.getItem (d : StrDict) (k : String) : Except PyErr String :=
  match d.get? k with
  | some v => Except.ok v
  | none => Except.error (PyErr.keyError k)

/-- Embedding of make_transfer (copy.py lines 67 to 71): if the object
has a key named to, build a DEST_IS_TARGET transfer from its from and
to entries; otherwise assert that a key named into is present and build
a DEST_DIR transfer from its from and into entries.  Argument lookups
happen left to right, after the membership tests, as in the source. -/
def make_transfer (json_object : StrDict) : Except PyErr Transfer :=
  if json_object.containsKey "to" then
    match json_object.getItem "from", json_object.getItem "to" with
    | Except.error e, _ => Except.error e
    | _, Except.error e => Except.error e
    | Except.ok f, Except.ok t =>
      Except.ok (Transfer.mk f t TreatDestAs.DEST_IS_TARGET)
  else if json_object.containsKey "into" then
    match json_object.getItem "from", json_object.getItem "into" with
    | Except.error e, _ => Except.error e
    | _, Except.error e => Except.error e
    | Except.ok f, Except.ok i =>
      Except.ok (Transfer.mk f i TreatDestAs.DEST_DIR)
  else
    Except.error PyErr.assertionError

/-- Status of one settled transfer: Success, or Failed with a cause. -/
inductive OutcomeStatus where
  | Success
  | Failed (cause : String)
deriving DecidableEq, Repr

/-- Whether an outcome status is a failure. -/
def OutcomeStatus.isFailed : OutcomeStatus → Bool
  | OutcomeStatus.Success => false
  | OutcomeStatus.Failed _ => true

/-- One per-transfer outcome record. -/
structure TransferOutcome where
  spec : Transfer
  status : OutcomeStatus
deriving DecidableEq, Repr

/-- Modelled from the spec: CopyReport owns the ordered list of
TransferOutcome, one per input TransferSpec, in insertion order of the
input list.  The class itself is outside the given sources. -/
structure CopyReport where
  outcomes : List TransferOutcome
deriving DecidableEq, Repr

/-- Machine-checkable overall status of a batch. -/
inductive OverallStatus where
  | Success
  | PartialFailure
deriving DecidableEq, Repr

/-- Modelled from the spec: overall status is PartialFailure if and
only if at least one TransferOutcome is Failed. -/
def CopyReport.overall_status (r : CopyReport) : OverallStatus :=
  if r.outcomes.any (fun o => o.status.isFailed) then
    OverallStatus.PartialFailure
  else
    OverallStatus.Success

/-- Modelled from the spec: summarize produces human-readable text
listing the failed transfers with their causes; it is a text producer
and raises nothing.  The method body is outside the given sources. -/
def CopyReport.summarize (r : CopyReport) : String :=
  String.intercalate ", "
    ((r.outcomes.filter (fun o => o.status.isFailed)).map (fun o => o.spec.dest))

/-- The environment a batch runs against, abstracting the storage
backends: for each requested transfer, whether it succeeds or with
what cause it fails. -/
def World := Transfer → OutcomeStatus

/-- Modelled from the spec: Copier.copy settles every requested
transfer against the backends, never unwinding the batch on a failure,
and records one outcome per input TransferSpec in input order.  The
progress listeners only consume rendering events and never influence
the outcomes, so they are not inputs of the report.  The Copier class
is outside the given sources. -/
def Copier.copy (w : World) (transfers : List Transfer) : CopyReport :=
  CopyReport.mk (transfers.map (fun t => TransferOutcome.mk t (w t)))

/-- A value stored in a backend kwargs dictionary: the shared thread
pool inserted by copy, or an opaque caller-supplied value such as the
parsed requester-pays project. -/
inductive KwVal where
  | threadPool
  | jsonVal (v : String)
deriving DecidableEq, Repr

/-- A kwargs dictionary: an association list in insertion order. -/
abbrev Kwargs := List (String × KwVal)

/-- Membership test on kwargs keys, embedding (k in kwargs). -/
def Kwargs.containsKey (d : Kwargs) (k : String) : Bool :=
  d.any (fun kv => kv.1 == k)

/-- Subscript assignment d[k] = v on a dictionary: overwrite the value
in place when the key exists, append a new entry otherwise. -/
def Kwargs.setItem : Kwargs → String → KwVal → Kwargs
  | [], k, v => [(k, v)]
  | kv :: rest, k, v =>
    if kv.1 == k then (k, v) :: rest else kv :: Kwargs.setItem rest k v

/-- Embedding of copy.py lines 38 to 46 for one kwargs argument:
default a missing dictionary to empty, then store the shared thread
pool under the key thread_pool unless that key is already present. -/
def ensureThreadPool (d : Option Kwargs) : Kwargs :=
  let d := d.getD []
  if d.containsKey "thread_pool" then d else d.setItem "thread_pool" KwVal.threadPool

/-- Whether the progress bars are disabled: embedding of the Python
expression (not verbose or TqdmDisableOption.default), which yields
True when verbose is false and the library sentinel otherwise. -/
inductive TqdmSetting where
  | disabled
  | librarySentinel
deriving DecidableEq, Repr

/-- The arguments of the coroutine copy (copy.py lines 26 to 34). -/
structure CopyArgs where
  max_simultaneous_transfers : Option Nat
  local_kwargs : Option Kwargs
  gcs_kwargs : Option Kwargs
  azure_kwargs : Option Kwargs
  s3_kwargs : Option Kwargs
  transfers : List Transfer
  verbose : Bool
deriving DecidableEq, Repr

/-- The observable effects of one run of the coroutine copy: the
semaphore size, the number of semaphore permits the copy coroutine
itself holds while it awaits Copier.copy, the arguments given to the
RouterAsyncFS constructor, the progress-bar disable setting, and the
resulting report. -/
structure CopyEffects where
  semaSize : Nat
  semaPermitsHeldByCopy : Nat
  routerDefaultScheme : String
  routerLocalKwargs : Kwargs
  routerGcsKwargs : Option Kwargs
  routerAzureKwargs : Option Kwargs
  routerS3Kwargs : Kwargs
  tqdmDisable : TqdmSetting
  report : CopyReport
deriving DecidableEq, Repr

/-- Embedding of the coroutine copy (copy.py lines 26 to 64): default
the concurrency limit to 75, insert the thread pool into local_kwargs
and s3_kwargs, construct the router with default scheme file and the
four kwargs dictionaries, create a semaphore of the chosen size,
acquire one permit of it (async with sema, line 55), and await
Copier.copy before summarizing the report. -/
def copy (a : CopyArgs) (w : World) : CopyEffects :=
  let max_simultaneous_transfers := a.max_simultaneous_transfers.getD 75
  let local_kwargs := ensureThreadPool a.local_kwargs
  let s3_kwargs := ensureThreadPool a.s3_kwargs
  { semaSize := max_simultaneous_transfers
    semaPermitsHeldByCopy := 1
    routerDefaultScheme := "file"
    routerLocalKwargs := local_kwargs
    routerGcsKwargs := a.gcs_kwargs
    routerAzureKwargs := a.azure_kwargs
    routerS3Kwargs := s3_kwargs
    tqdmDisable := if !a.verbose then TqdmSetting.disabled else TqdmSetting.librarySentinel
    report := Copier.copy w a.transfers }

/-- Embedding of the list comprehension in copy_from_dict (copy.py
line 83): build the transfers left to right, propagating the first
raised exception. -/
def buildTransfers : List StrDict → Except PyErr (List Transfer)
  | [] => Except.ok []
  | j :: rest =>
    match make_transfer j with
    | Except.error e => Except.error e
    | Except.ok t =>
      match buildTransfers rest with
      | Except.error e => Except.error e
      | Except.ok ts => Except.ok (t :: ts)

/-- Embedding of copy_from_dict (copy.py lines 74 to 92): convert every
request object to a Transfer, then delegate to copy.  An exception from
make_transfer propagates before copy is entered, so no router is built
and no transfer of the batch is started. -/
def copy_from_dict (max_simultaneous_transfers : Option Nat)
    (local_kwargs gcs_kwargs azure_kwargs s3_kwargs : Option Kwargs)
    (files : List StrDict) (verbose : Bool) (w : World) :
    Except PyErr CopyEffects :=
  match buildTransfers files with
  | Except.error e => Except.error e
  | Except.ok transfers =>
    Except.ok (copy
      (CopyArgs.mk max_simultaneous_transfers local_kwargs gcs_kwargs
        azure_kwargs s3_kwargs transfers verbose) w)

/-- The inputs of the command-line entry point after the out-of-scope
argument parsing and JSON decoding: the parsed requester-pays project
value, the parsed request list, the optional transfer limit and the
verbosity flag. -/
structure MainArgs where
  requester_pays_project : KwVal
  files : List StrDict
  max_simultaneous_transfers : Option Nat
  verbose : Bool
deriving DecidableEq, Repr

/-- Embedding of main (copy.py lines 95 to 123): wrap the parsed
requester-pays project as the project entry of a fresh gcs_kwargs
dictionary and call copy_from_dict with it; no other kwargs are
supplied.  Named mainEntry because Lean reserves the name main for an
executable entry point. -/
def mainEntry (a : MainArgs) (w : World) : Except PyErr CopyEffects :=
  let gcs_kwargs : Kwargs := [("project", a.requester_pays_project)]
  copy_from_dict a.max_simultaneous_transfers none (some gcs_kwargs)
    none none a.files a.verbose w

/-- Modelled from the Python runtime around asyncio.run(main()) at
copy.py line 128: the process exits with status 0 when main returns
normally and with a non-zero status when an exception escapes it.  Note
that the visible code never turns the report into an exception or an
exit status: copy only calls copy_report.summarize(). -/
def processExitCode : Except PyErr CopyEffects → Nat
  | Except.ok _ => 0
  | Except.error _ => 1

/-- The overall status of the report of a completed run, when a report
was produced at all. -/
def reportStatus (r : Except PyErr CopyEffects) : Option OverallStatus :=
  (r.toOption).map (fun eff => eff.report.overall_status)

/-- State of the copy semaphore while Copier.copy runs: the number of
available permits and the number of CopyTasks that have acquired a
permit and not yet released it (concurrently-active tasks). -/
structure SemaState where
  avail : Nat
  active : Nat
deriving DecidableEq, Repr

/-- Modelled from the spec: scheduler steps against the semaphore.  A
CopyTask first acquires one permit (possible only when a permit is
available) and releases it when its transfer is done. -/
inductive CopierStep : SemaState → SemaState → Prop
  | acquire {s : SemaState} (h : 0 < s.avail) :
      CopierStep s (SemaState.mk (s.avail - 1) (s.active + 1))
  | release {s : SemaState} (h : 0 < s.active) :
      CopierStep s (SemaState.mk (s.avail + 1) (s.active - 1))

/-- The semaphore state at the moment copy awaits Copier.copy: the
semaphore was created with semaSize permits (copy.py line 53) and the
copy coroutine is holding the permits it acquired at line 55, so only
the remainder is available to the CopyTasks, none of which is active
yet. -/
def copyInitialSemaState (eff : CopyEffects) : SemaState :=
  SemaState.mk (eff.semaSize - eff.semaPermitsHeldByCopy) 0

/-- The semaphore states that can occur while Copier.copy runs on
behalf of a given run of copy: everything the scheduler steps can reach
from the initial state. -/
inductive ReachableDuringCopierCopy (eff : CopyEffects) : SemaState → Prop
  | init : ReachableDuringCopierCopy eff (copyInitialSemaState eff)
  | step {s t : SemaState} (hs : ReachableDuringCopierCopy eff s)
      (hstep : CopierStep s t) : ReachableDuringCopierCopy eff t

/-- A storage backend as the router sees it: the local filesystem, or
the remote object store registered for a scheme. -/
inductive Backend where
  | localFS
  | remote (scheme : String)
deriving DecidableEq, Repr

/-- A path as the router sees it: an optional URI scheme and the rest
of the path. -/
structure URI where
  scheme : Option String
  path : String
deriving DecidableEq, Repr

/-- Modelled from the spec: RouterAsyncFS.resolve is a pure function of
the URI scheme, with the configured default scheme substituted when the
URI carries none; the scheme file names the local filesystem backend.
The router class is outside the given sources. -/
def RouterAsyncFS.resolve (default_scheme : String) (u : URI) : Backend :=
  match u.scheme.getD default_scheme with
  | "file" => Backend.localFS
  | s => Backend.remote s

/-! Helper lemmas and concrete runs used by the verification below. -/

/-- A world in which every transfer succeeds. -/
def worldAllOk : World := fun _ => OutcomeStatus.Success

/-- A world in which every transfer fails because the source is gone. -/
def worldAllFail : World := fun _ => OutcomeStatus.Failed "NotFound"

theorem StrDict.containsKey_of_get (d : StrDict) (k v : String)
    (h : d.get? k = some v) : d.containsKey k = true := by
  induction d with
  | nil => simp [StrDict.get?] at h
  | cons kv rest ih =>
    by_cases hk : kv.1 == k
    · simp [StrDict.containsKey, hk]
    · simp only [StrDict.get?, List.find?] at h
      rw [Bool.not_eq_true] at hk
      rw [hk] at h
      simp only [StrDict.containsKey, List.any_cons, hk, Bool.false_or]
      exact ih h

theorem StrDict.getItem_of_get (d : StrDict) (k v : String)
    (h : d.get? k = some v) : d.getItem k = Except.ok v := by
  simp [StrDict.getItem, h]

theorem Kwargs.setItem_append (d : Kwargs) (k : String) (v : KwVal)
    (h : d.containsKey k = false) : d.setItem k v = d ++ [(k, v)] := by
  induction d with
  | nil => rfl
  | cons kv rest ih =>
    simp only [Kwargs.containsKey, List.any_cons, Bool.or_eq_false_iff] at h
    simp [Kwargs.setItem, h.1, ih h.2]

theorem buildTransfers_error_of_mem (files : List StrDict) (j : StrDict)
    (hmem : j ∈ files) (e0 : PyErr)
    (hj : make_transfer j = Except.error e0) :
    ∃ e, buildTransfers files = Except.error e := by
  induction files with
  | nil => cases hmem
  | cons hd tl ih =>
    cases List.mem_cons.mp hmem with
    | inl hhd =>
      refine ⟨e0, ?_⟩
      rw [hhd] at hj
      simp [buildTransfers, hj]
    | inr htl =>
      cases hhd : make_transfer hd with
      | error e => exact ⟨e, by simp [buildTransfers, hhd]⟩
      | ok t =>
        obtain ⟨e, he⟩ := ih htl
        exact ⟨e, by simp [buildTransfers, hhd, he]⟩

theorem copy_from_dict_ok (mx : Option Nat)
    (lk gk ak sk : Option Kwargs) (files : List StrDict) (v : Bool)
    (w : World) (eff : CopyEffects)
    (h : copy_from_dict mx lk gk ak sk files v w = Except.ok eff) :
    ∃ ts, buildTransfers files = Except.ok ts ∧
      eff = copy (CopyArgs.mk mx lk gk ak sk ts v) w := by
  cases hb : buildTransfers files with
  | error e =>
    rw [copy_from_dict, hb] at h
    exact Except.noConfusion h
  | ok ts =>
    rw [copy_from_dict, hb] at h
    exact ⟨ts, rfl, (Except.ok.inj h).symm⟩

/-- C3: when a request object carries both a to field and an into
field (and the mandatory from field), make_transfer gives precedence
to the to field: it returns a Transfer whose destination is the value
of to with disposition DEST_IS_TARGET, and the value under into plays
no role in the result. -/
theorem C3_to_takes_precedence (j : StrDict) (f t : String)
    (hf : j.get? "from" = some f) (ht : j.get? "to" = some t)
    (hinto : j.containsKey "into" = true) :
    make_transfer j = Except.ok (Transfer.mk f t TreatDestAs.DEST_IS_TARGET) := by
  have hc : j.containsKey "to" = true := StrDict.containsKey_of_get j "to" t ht
  rw [make_transfer, if_pos hc, StrDict.getItem_of_get j "from" f hf,
    StrDict.getItem_of_get j "to" t ht]

theorem C3_to_takes_precedence_witness :
    make_transfer [("from", "a"), ("to", "b"), ("into", "c")]
      = Except.ok (Transfer.mk "a" "b" TreatDestAs.DEST_IS_TARGET) :=
  C3_to_takes_precedence [("from", "a"), ("to", "b"), ("into", "c")] "a" "b"
    (by decide) (by decide) (by decide)

/-- C4: a well-formed request of shape from/to maps to a Transfer onto
the exact path named by to (DEST_IS_TARGET), and a request of shape
from/into, with no to field, maps to a Transfer into the directory
named by into (DEST_DIR). -/
theorem C4_request_shapes (j1 j2 : StrDict) (f1 t1 f2 i2 : String)
    (h1f : j1.get? "from" = some f1) (h1t : j1.get? "to" = some t1)
    (h1into : j1.containsKey "into" = false)
    (h2f : j2.get? "from" = some f2) (h2to : j2.containsKey "to" = false)
    (h2i : j2.get? "into" = some i2) :
    make_transfer j1 = Except.ok (Transfer.mk f1 t1 TreatDestAs.DEST_IS_TARGET) ∧
    make_transfer j2 = Except.ok (Transfer.mk f2 i2 TreatDestAs.DEST_DIR) := by
  constructor
  · have hc : j1.containsKey "to" = true := StrDict.containsKey_of_get j1 "to" t1 h1t
    rw [make_transfer, if_pos hc, StrDict.getItem_of_get j1 "from" f1 h1f,
      StrDict.getItem_of_get j1 "to" t1 h1t]
  · have hc : j2.containsKey "into" = true :=
      StrDict.containsKey_of_get j2 "into" i2 h2i
    rw [make_transfer, if_neg (by simp [h2to]), if_pos hc,
      StrDict.getItem_of_get j2 "from" f2 h2f,
      StrDict.getItem_of_get j2 "into" i2 h2i]

theorem C4_request_shapes_witness :
    make_transfer [("from", "a"), ("to", "b")]
      = Except.ok (Transfer.mk "a" "b" TreatDestAs.DEST_IS_TARGET) ∧
    make_transfer [("from", "a"), ("into", "d")]
      = Except.ok (Transfer.mk "a" "d" TreatDestAs.DEST_DIR) :=
  C4_request_shapes [("from", "a"), ("to", "b")] [("from", "a"), ("into", "d")]
    "a" "b" "a" "d" (by decide) (by decide) (by decide) (by decide) (by decide)
    (by decide)

/-- C5: when max_simultaneous_transfers is None, both copy and
copy_from_dict size the scheduler semaphore at exactly 75. -/
theorem C5_default_limit_75 (lk gk ak sk : Option Kwargs)
    (ts : List Transfer) (files : List StrDict) (v : Bool) (w : World) :
    (copy (CopyArgs.mk none lk gk ak sk ts v) w).semaSize = 75 ∧
    (∀ eff, copy_from_dict none lk gk ak sk files v w = Except.ok eff →
      eff.semaSize = 75) := by
  refine ⟨rfl, fun eff h => ?_⟩
  obtain ⟨ts', hb, heff⟩ := copy_from_dict_ok none lk gk ak sk files v w eff h
  subst heff
  rfl

theorem C5_default_limit_75_witness :
    (copy (CopyArgs.mk none none none none none [] false) worldAllOk).semaSize
      = 75 ∧
    (copy_from_dict none none none none none [] false worldAllOk
        = Except.ok (copy (CopyArgs.mk none none none none none [] false)
          worldAllOk) →
      (copy (CopyArgs.mk none none none none none [] false)
        worldAllOk).semaSize = 75) :=
  ⟨(C5_default_limit_75 none none none none [] [] false worldAllOk).1,
    (C5_default_limit_75 none none none none [] [] false worldAllOk).2 _⟩

/-- C9: a request object with neither a to field nor an into field
makes make_transfer fail the assert statement, and any batch containing
such a request makes copy_from_dict raise, so copy is never entered and
no transfer of the batch starts. -/
theorem C9_assert_without_dest (files : List StrDict) (j : StrDict)
    (hmem : j ∈ files) (hto : j.containsKey "to" = false)
    (hinto : j.containsKey "into" = false) (mx : Option Nat)
    (lk gk ak sk : Option Kwargs) (v : Bool) (w : World) :
    make_transfer j = Except.error PyErr.assertionError ∧
    ∃ e, copy_from_dict mx lk gk ak sk files v w = Except.error e := by
  have hmt : make_transfer j = Except.error PyErr.assertionError := by
    rw [make_transfer, if_neg (by simp [hto]), if_neg (by simp [hinto])]
  refine ⟨hmt, ?_⟩
  obtain ⟨e, he⟩ :=
    buildTransfers_error_of_mem files j hmem PyErr.assertionError hmt
  exact ⟨e, by rw [copy_from_dict, he]⟩

theorem C9_assert_without_dest_witness :
    make_transfer [("from", "a")] = Except.error PyErr.assertionError ∧
    ∃ e, copy_from_dict none none none none none [[("from", "a")]] false
      worldAllOk = Except.error e :=
  C9_assert_without_dest [[("from", "a")]] [("from", "a")]
    (by simp) (by decide) (by decide) none none none none none false worldAllOk

/-- The parsed arguments of a command-line run whose single request is
well-formed and whose source is missing, so its one transfer fails. -/
def mainArgsOneFailing : MainArgs :=
  MainArgs.mk (KwVal.jsonVal "my-project")
    [[("from", "missing.txt"), ("to", "x.txt")]] none false

/-- C1 fails as stated: a batch whose one transfer fails yields a
report with overall status PartialFailure, yet main returns normally
(copy only calls summarize on the report) and the process exits with
status zero, contradicting the claimed equivalence of non-zero exit
and PartialFailure. -/
theorem C1_counterexample :
    reportStatus (mainEntry mainArgsOneFailing worldAllFail)
      = some OverallStatus.PartialFailure ∧
    processExitCode (mainEntry mainArgsOneFailing worldAllFail) = 0 := by
  decide

/-- C1 amended: the exit status of the command-line entry point is
independent of the CopyReport: the process exits zero whenever main
returns normally, even when overall_status() is PartialFailure, and
exits non-zero exactly when an exception (KeyError or AssertionError
while building the transfers) escapes main. -/
theorem C1_exit_independent_of_report (a : MainArgs) (w : World) :
    (∀ eff, mainEntry a w = Except.ok eff →
      processExitCode (mainEntry a w) = 0) ∧
    (∀ e, mainEntry a w = Except.error e →
      processExitCode (mainEntry a w) = 1) := by
  constructor
  · intro eff h
    rw [h]
    rfl
  · intro e h
    rw [h]
    rfl

theorem C1_exit_independent_of_report_witness :
    processExitCode (mainEntry mainArgsOneFailing worldAllFail) = 0 :=
  (C1_exit_independent_of_report mainArgsOneFailing worldAllFail).1 _ rfl

/-- The arguments of a copy run with an explicit concurrency limit of
75 and an empty batch, used to evaluate the semaphore model. -/
def argsLimit75 : CopyArgs := CopyArgs.mk (some 75) none none none none [] false

/-- C2 fails as stated: copy creates the semaphore with
max_simultaneous_transfers permits but then acquires one itself
(async with sema, copy.py line 55) before awaiting Copier.copy, so at
the moment Copier.copy starts only 74 of the 75 permits are available
to its CopyTasks, not all 75 as the claim asserts. -/
theorem C2_counterexample :
    (copy argsLimit75 worldAllOk).semaSize = 75 ∧
    (copyInitialSemaState (copy argsLimit75 worldAllOk)).avail = 74 ∧
    ¬ (copyInitialSemaState (copy argsLimit75 worldAllOk)).avail
      = (copy argsLimit75 worldAllOk).semaSize := by
  decide

/-- C2 amended: while Copier.copy runs on behalf of copy with limit n,
the copy coroutine holds one of the n semaphore permits, so every
reachable scheduler state keeps the number of available permits plus
the number of concurrently-active (post-acquire, pre-release)
CopyTasks at n - 1; in particular at most n - 1 CopyTasks are active
at any point, which also keeps the claimed bound of n. -/
theorem C2_active_tasks_bounded (a : CopyArgs) (w : World) (s : SemaState)
    (h : ReachableDuringCopierCopy (copy a w) s) :
    s.avail + s.active = (copy a w).semaSize - 1 ∧
    s.active ≤ (copy a w).semaSize - 1 := by
  have hinv : s.avail + s.active = (copy a w).semaSize - 1 := by
    induction h with
    | init => simp [copyInitialSemaState, copy]
    | step hs hstep ih =>
      cases hstep with
      | acquire h0 => simp only [SemaState.mk.injEq] at *; omega
      | release h0 => simp only [SemaState.mk.injEq] at *; omega
  exact ⟨hinv, by omega⟩

theorem C2_active_tasks_bounded_witness :
    (SemaState.mk 73 1).avail + (SemaState.mk 73 1).active
      = (copy argsLimit75 worldAllOk).semaSize - 1 ∧
    (SemaState.mk 73 1).active ≤ (copy argsLimit75 worldAllOk).semaSize - 1 :=
  C2_active_tasks_bounded argsLimit75 worldAllOk (SemaState.mk 73 1)
    (ReachableDuringCopierCopy.step ReachableDuringCopierCopy.init
      (CopierStep.acquire (by decide)))

/-- C6: two runs of copy that differ only in the verbose flag produce
the same CopyReport (hence the same outcomes, destinations and totals)
and the same backend configuration; verbose only switches the
progress-bar disable setting. -/
theorem C6_verbose_only_rendering (a : CopyArgs) (w : World) :
    (copy { a with verbose := true } w).report
      = (copy { a with verbose := false } w).report ∧
    (copy { a with verbose := true } w).semaSize
      = (copy { a with verbose := false } w).semaSize ∧
    (copy { a with verbose := true } w).routerDefaultScheme
      = (copy { a with verbose := false } w).routerDefaultScheme ∧
    (copy { a with verbose := true } w).routerLocalKwargs
      = (copy { a with verbose := false } w).routerLocalKwargs ∧
    (copy { a with verbose := true } w).routerGcsKwargs
      = (copy { a with verbose := false } w).routerGcsKwargs ∧
    (copy { a with verbose := true } w).routerAzureKwargs
      = (copy { a with verbose := false } w).routerAzureKwargs ∧
    (copy { a with verbose := true } w).routerS3Kwargs
      = (copy { a with verbose := false } w).routerS3Kwargs ∧
    (copy { a with verbose := true } w).tqdmDisable
      = TqdmSetting.librarySentinel ∧
    (copy { a with verbose := false } w).tqdmDisable
      = TqdmSetting.disabled :=
  ⟨rfl, rfl, rfl, rfl, rfl, rfl, rfl, rfl, rfl⟩

/-- C7: the parsed requester-pays project value is wrapped by main as
the project entry of gcs_kwargs and reaches the RouterAsyncFS
construction unchanged, whatever its value is: the result holds for
every possible project value, so the core neither inspects nor
transforms it. -/
theorem C7_project_passed_opaquely (p : KwVal) (files : List StrDict)
    (mx : Option Nat) (v : Bool) (w : World) (eff : CopyEffects)
    (h : mainEntry (MainArgs.mk p files mx v) w = Except.ok eff) :
    eff.routerGcsKwargs = some [("project", p)] := by
  obtain ⟨ts, hb, heff⟩ :=
    copy_from_dict_ok mx none (some [("project", p)]) none none files v w eff h
  subst heff
  rfl

theorem C7_project_passed_opaquely_witness :
    (copy (CopyArgs.mk none none (some [("project", KwVal.jsonVal "proj")])
        none none [Transfer.mk "a" "b" TreatDestAs.DEST_IS_TARGET] false)
      worldAllOk).routerGcsKwargs
      = some [("project", KwVal.jsonVal "proj")] :=
  C7_project_passed_opaquely (KwVal.jsonVal "proj")
    [[("from", "a"), ("to", "b")]] none false worldAllOk
    (copy (CopyArgs.mk none none (some [("project", KwVal.jsonVal "proj")])
      none none [Transfer.mk "a" "b" TreatDestAs.DEST_IS_TARGET] false)
      worldAllOk)
    (by rfl)

/-- C8: when a caller-supplied local_kwargs or s3_kwargs dictionary
lacks the key thread_pool, copy extends that dictionary with a
thread_pool entry appended after the caller's entries, which are left
unchanged, while caller-supplied gcs_kwargs and azure_kwargs reach
RouterAsyncFS exactly as given. -/
theorem C8_kwargs_frame (dLocal dS3 : Kwargs) (mx : Option Nat)
    (gk ak : Option Kwargs) (ts : List Transfer) (v : Bool) (w : World)
    (hl : dLocal.containsKey "thread_pool" = false)
    (hs : dS3.containsKey "thread_pool" = false) :
    (copy (CopyArgs.mk mx (some dLocal) gk ak (some dS3) ts v)
        w).routerLocalKwargs
      = dLocal ++ [("thread_pool", KwVal.threadPool)] ∧
    (copy (CopyArgs.mk mx (some dLocal) gk ak (some dS3) ts v)
        w).routerS3Kwargs
      = dS3 ++ [("thread_pool", KwVal.threadPool)] ∧
    (copy (CopyArgs.mk mx (some dLocal) gk ak (some dS3) ts v)
        w).routerGcsKwargs = gk ∧
    (copy (CopyArgs.mk mx (some dLocal) gk ak (some dS3) ts v)
        w).routerAzureKwargs = ak := by
  refine ⟨?_, ?_, rfl, rfl⟩
  · show ensureThreadPool (some dLocal) = _
    rw [ensureThreadPool]
    simp only [Option.getD_some]
    rw [if_neg (by simp [hl]), Kwargs.setItem_append dLocal _ _ hl]
  · show ensureThreadPool (some dS3) = _
    rw [ensureThreadPool]
    simp only [Option.getD_some]
    rw [if_neg (by simp [hs]), Kwargs.setItem_append dS3 _ _ hs]

theorem C8_kwargs_frame_witness :
    (copy (CopyArgs.mk none (some [("x", KwVal.jsonVal "1")])
        (some [("project", KwVal.jsonVal "p")]) none (some []) [] false)
        worldAllOk).routerLocalKwargs
      = [("x", KwVal.jsonVal "1")] ++ [("thread_pool", KwVal.threadPool)] ∧
    (copy (CopyArgs.mk none (some [("x", KwVal.jsonVal "1")])
        (some [("project", KwVal.jsonVal "p")]) none (some []) [] false)
        worldAllOk).routerS3Kwargs
      = [] ++ [("thread_pool", KwVal.threadPool)] ∧
    (copy (CopyArgs.mk none (some [("x", KwVal.jsonVal "1")])
        (some [("project", KwVal.jsonVal "p")]) none (some []) [] false)
        worldAllOk).routerGcsKwargs = some [("project", KwVal.jsonVal "p")] ∧
    (copy (CopyArgs.mk none (some [("x", KwVal.jsonVal "1")])
        (some [("project", KwVal.jsonVal "p")]) none (some []) [] false)
        worldAllOk).routerAzureKwargs = none :=
  C8_kwargs_frame [("x", KwVal.jsonVal "1")] [] none
    (some [("project", KwVal.jsonVal "p")]) none [] false worldAllOk
    (by decide) (by decide)

/-- C10: every batch constructs the router with default scheme file,
so a source or destination URI that carries no scheme resolves to the
local filesystem backend. -/
theorem C10_default_scheme_local (a : CopyArgs) (w : World) (p : String) :
    (copy a w).routerDefaultScheme = "file" ∧
    RouterAsyncFS.resolve (copy a w).routerDefaultScheme (URI.mk none p)
      = Backend.localFS :=
  ⟨rfl, rfl⟩
